import Mathlib

/-!
Shallow embedding of the PlantDiseaseDetection repository
(src/app.py, src/app_enhanced.py, src/utils.py, src/model_loader.py).

Model outputs (numpy float scalars and vectors) are embedded as rationals `ℚ`:
every comparison the code performs (threshold, argmax, argsort) is an exact order
comparison, which `ℚ` models faithfully for any concrete float values.
8-bit image channels are embedded as `Fin 256`, matching numpy `uint8`.
External library primitives (PIL resize and convert, the cv2 CLAHE pipeline,
`st.cache_resource`) are embedded at their documented type and behaviour;
each such embedding carries a doc comment saying what is abstracted.
-/

namespace PlantDisease

/-- Python `str.lower()` restricted to ASCII, which is all the repository uses. -/
def pyLower (s : List Char) : List Char :=
  s.map Char.toLower

/-- Python `str.replace(a, b)` for a single-character pattern
(the code only uses `.replace` from underscore to space). -/
def pyReplaceChar (a b : Char) (s : List Char) : List Char :=
  s.map (fun c => if c = a then b else c)

/-- Does `pat` occur at the head of the second list? (Python slice comparison.) -/
def isPrefixList : List Char → List Char → Bool
  | [], _ => true
  | _ :: _, [] => false
  | a :: as, b :: bs => if a = b then isPrefixList as bs else false

/-- Python substring containment, `sub in s`. -/
def isSubList (sub : List Char) : List Char → Bool
  | [] => sub.isEmpty
  | c :: rest => isPrefixList sub (c :: rest) || isSubList sub rest

/-- Substring containment as a proposition: `sub` occurs contiguously in `s`.
Used to state that an error message contains an underlying decoder message. -/
def containsStr (sub s : List Char) : Prop :=
  ∃ pre post, s = pre ++ sub ++ post

/-- Fuel-indexed worker for Python `str.split(sep)` with a non-empty separator:
scan left to right, cut at each non-overlapping occurrence of `sep`.
`acc` holds the current chunk reversed; fuel `s.length + 1` always suffices. -/
def pySplitGo (sep : List Char) : Nat → List Char → List Char → List (List Char)
  | _, acc, [] => [acc.reverse]
  | 0, acc, rest => [acc.reverse ++ rest]
  | fuel + 1, acc, c :: cs =>
    if isPrefixList sep (c :: cs) then
      acc.reverse :: pySplitGo sep fuel [] ((c :: cs).drop sep.length)
    else
      pySplitGo sep fuel (c :: acc) cs

/-- Python `str.split(sep)` for a non-empty separator. -/
def pySplit (sep s : List Char) : List (List Char) :=
  pySplitGo sep (s.length + 1) [] s

/-! ### Binary-mode classification (src/app.py, `predict_disease`, lines 60-76)

The model output `predictions[0][0]` is abstracted as the rational `p`;
the preprocessing and the model call itself are outside this function's
decision logic.  The function returns `(predicted_class, confidence,
disease_probability)` exactly as the source does. -/

/-- Threshold logic of `predict_disease` in src/app.py: probability of
"diseased" is `p`; label "Diseased" when `p > 0.5`, else "Healthy";
confidence `p` when diseased, `1 - p` when healthy; `p` is also returned. -/
def predict_disease_binary (p : ℚ) : String × ℚ × ℚ :=
  if p > mkRat 1 2 then ("Diseased", p, p) else ("Healthy", 1 - p, p)

/-! ### Multi-class argmax (src/app_enhanced.py, `predict_disease`, lines 142-149) -/

/-- Scan worker embedding `np.argmax`: `k` is the absolute index of the head of
the remaining list, `bi`/`bv` the best index and value so far; a later element
replaces the best only when strictly greater, so the first maximum wins. -/
def argmaxAux : List ℚ → Nat → Nat → ℚ → Nat
  | [], _, bi, _ => bi
  | x :: xs, k, bi, bv =>
    if x > bv then argmaxAux xs (k + 1) k x else argmaxAux xs (k + 1) bi bv

/-- `np.argmax` on a vector embedded as a list: index of the first occurrence
of the maximum (0 on the empty list, which the app never passes). -/
def argmaxFirst : List ℚ → Nat
  | [] => 0
  | x :: xs => argmaxAux xs 1 0 x

/-- The fixed 38-entry class-label table of src/app_enhanced.py (lines 67-81),
order significant. -/
def CLASS_LABELS : List String :=
  ["Apple___Apple_scab", "Apple___Black_rot", "Apple___Cedar_apple_rust", "Apple___healthy",
   "Blueberry___healthy", "Cherry_(including_sour)___Powdery_mildew", "Cherry_(including_sour)___healthy",
   "Corn_(maize)___Cercospora_leaf_spot Gray_leaf_spot", "Corn_(maize)___Common_rust_",
   "Corn_(maize)___Northern_Leaf_Blight", "Corn_(maize)___healthy", "Grape___Black_rot",
   "Grape___Esca_(Black_Measles)", "Grape___Leaf_blight_(Isariopsis_Leaf_Spot)", "Grape___healthy",
   "Orange___Haunglongbing_(Citrus_greening)", "Peach___Bacterial_spot", "Peach___healthy",
   "Pepper,_bell___Bacterial_spot", "Pepper,_bell___healthy", "Potato___Early_blight",
   "Potato___Late_blight", "Potato___healthy", "Raspberry___healthy", "Soybean___healthy",
   "Squash___Powdery_mildew", "Strawberry___Leaf_scorch", "Strawberry___healthy",
   "Tomato___Bacterial_spot", "Tomato___Early_blight", "Tomato___Late_blight",
   "Tomato___Leaf_Mold", "Tomato___Septoria_leaf_spot", "Tomato___Spider_mites Two-spotted_spider_mite",
   "Tomato___Target_Spot", "Tomato___Tomato_Yellow_Leaf_Curl_Virus", "Tomato___Tomato_mosaic_virus",
   "Tomato___healthy"]

/-- Multi-class `predict_disease` of src/app_enhanced.py: the model output
vector `predictions[0]` is abstracted as `scores`; returns
`(CLASS_LABELS[argmax], predictions[0][argmax], predictions[0])`. -/
def predict_disease_multi (scores : List ℚ) : String × ℚ × List ℚ :=
  let i := argmaxFirst scores
  (CLASS_LABELS.getD i "", scores.getD i 0, scores)

/-! ### Images and preprocessing (src/app.py lines 42-58, src/utils.py lines 34-57) -/

/-- One 8-bit pixel: `(channel0, channel1, channel2)`, each in `0..255`.
This is the dtype-level fact about numpy `uint8` image arrays. -/
def Pix : Type := Fin 256 × Fin 256 × Fin 256

/-- A decoded PIL image: a color `mode` string (for example "RGB", "L",
"RGBA"), spatial dimensions, and a total pixel function (row, column).
Pixel storage outside the valid rectangle is irrelevant to every claim. -/
structure PILImage where
  mode : String
  width : Nat
  height : Nat
  px : Nat → Nat → Pix

/-- PIL `image.convert` to "RGB".  The library's channel-conversion arithmetic
(grayscale replication, alpha dropping, palette lookup) is abstracted: the
embedding keeps the stored 8-bit triples and records the mode change, which is
the property the pipeline relies on (mode becomes "RGB", dimensions and the
8-bit channel range are preserved). -/
def pilConvertRGB (img : PILImage) : PILImage :=
  { img with mode := "RGB" }

/-- PIL `image.resize((tw, th))`.  PIL's interpolation kernel is abstracted to
a deterministic sample of the source grid; the properties the pipeline relies
on are exact: the result is `tw` wide and `th` high and every channel is still
an 8-bit value. -/
def pilResize (img : PILImage) (tw th : Nat) : PILImage :=
  { mode := img.mode, width := tw, height := th,
    px := fun i j => img.px (i * img.height / th) (j * img.width / tw) }

/-- A 4-dimensional float tensor: its numpy shape and a total value function
`(batch, row, column, channel) → value`. -/
structure Tensor4 where
  shape : List Nat
  val : Nat → Nat → Nat → Nat → ℚ

/-- Channel `c` of a pixel as a rational in `0..255`. -/
def channelVal (p : Pix) : Nat → ℚ
  | 0 => (p.1 : ℚ)
  | 1 => (p.2.1 : ℚ)
  | _ => (p.2.2 : ℚ)

/-- Shared tail of both preprocessors: `np.array(image)` (shape
`(height, width, 3)` for an RGB PIL image), `astype(float32) / 255.0`,
`np.expand_dims(axis=0)`. -/
def toNormalizedTensor (grid : Nat → Nat → Pix) (tw th : Nat) : Tensor4 :=
  { shape := [1, th, tw, 3],
    val := fun _ i j c => channelVal (grid i j) c / 255 }

/-- `preprocess_image` of src/app.py (lines 42-58): convert to RGB when the
mode differs, resize to `target_size = (tw, th)`, cast to float and divide by
255, prepend the batch axis.  The app calls it with the default (150, 150). -/
def preprocess_image (img : PILImage) (tw th : Nat) : Tensor4 :=
  let rgb := if img.mode ≠ "RGB" then pilConvertRGB img else img
  let r := pilResize rgb tw th
  toNormalizedTensor r.px tw th

/-- `apply_clahe` of src/utils.py (lines 10-31) is a chain of cv2 calls
(RGB to LAB, CLAHE on the lightness channel with clip limit 2.0 and tile grid
8 by 8, merge, LAB to RGB) on a `uint8` height-by-width-by-3 array.  Its
embedding is an arbitrary function of that exact type — a `Pix` grid to a
`Pix` grid of the same extent — since every cv2 step preserves the spatial
shape and the `uint8` dtype.  The theorems quantify over it. -/
def EnhanceFn : Type := (Nat → Nat → Pix) → (Nat → Nat → Pix)

/-- `preprocess_with_clahe` of src/utils.py (lines 34-57): convert to RGB when
the mode differs, resize to `target_size = (tw, th)`, apply CLAHE, cast to
float and divide by 255, prepend the batch axis.  `enhance` stands for
`apply_clahe` (see `EnhanceFn`). -/
def preprocess_with_clahe (enhance : EnhanceFn) (img : PILImage) (tw th : Nat) : Tensor4 :=
  let rgb := if img.mode ≠ "RGB" then pilConvertRGB img else img
  let r := pilResize rgb tw th
  toNormalizedTensor (enhance r.px) tw th

/-! ### Robust image loader (src/app.py, `load_uploaded_image`, lines 135-163) -/

/-- A cv2 decoded image: blue-green-red channel order, 8-bit. -/
structure BGRImage where
  width : Nat
  height : Nat
  px : Nat → Nat → Pix

/-- `cv2.cvtColor(img, cv2.COLOR_BGR2RGB)` followed by `Image.fromarray`:
swap the first and third channel of every pixel, yielding an RGB PIL image. -/
def bgrToRgb (img : BGRImage) : PILImage :=
  { mode := "RGB", width := img.width, height := img.height,
    px := fun i j => ((img.px i j).2.2, (img.px i j).2.1, (img.px i j).1) }

/-- `load_uploaded_image` of src/app.py (lines 135-163).  The uploaded bytes
are `raw`; the two decoding libraries are parameters: `pil` stands for
`Image.open` plus `img.load()` (any exception becomes an `error` message) and
`cv` stands for `np.frombuffer` plus `cv2.imdecode` plus `cv2.cvtColor`
(`imdecode` returning `None` raises "OpenCV failed to decode image", so every
failure is again an `error` message).  Empty input raises before either
decoder runs; a cv2 success is converted from BGR to RGB; a double failure
raises one message concatenating both causes. -/
def load_uploaded_image (pil : List Nat → Except String PILImage)
    (cv : List Nat → Except String BGRImage) (raw : List Nat) :
    Except String PILImage :=
  if raw = [] then .error "Uploaded file is empty"
  else
    match pil raw with
    | .ok img => .ok img
    | .error pilErr =>
      match cv raw with
      | .ok cvImg => .ok (bgrToRgb cvImg)
      | .error cvErr =>
        .error ("PIL error: " ++ pilErr ++ "; OpenCV error: " ++ cvErr)

/-! ### Disease information lookup (src/utils.py, `get_disease_info`, lines 60-139)

Python dictionaries preserve insertion order, so the `disease_info` dict is an
ordered association list; each value dict is itself an association list with
keys "description" and "treatment". -/

/-- The fixed `disease_info` table of src/utils.py, in declaration order. -/
def disease_info_table : List (String × List (String × String)) :=
  [("Apple_scab",
    [("description", "A fungal disease causing dark, scabby lesions on leaves and fruit."),
     ("treatment", "Remove infected leaves, apply fungicides, and ensure good air circulation.")]),
   ("Black_rot",
    [("description", "A fungal disease causing circular leaf spots and fruit rot."),
     ("treatment", "Prune infected areas, apply fungicides, and maintain orchard sanitation.")]),
   ("Cedar_apple_rust",
    [("description", "A fungal disease causing orange spots on leaves."),
     ("treatment", "Remove nearby cedar trees, apply fungicides in spring.")]),
   ("Powdery_mildew",
    [("description", "A fungal disease creating white powdery growth on leaves."),
     ("treatment", "Improve air circulation, apply sulfur-based fungicides.")]),
   ("Common_rust",
    [("description", "A fungal disease causing reddish-brown pustules on leaves."),
     ("treatment", "Use resistant varieties, apply fungicides if severe.")]),
   ("Northern_Leaf_Blight",
    [("description", "A fungal disease causing long, elliptical lesions on leaves."),
     ("treatment", "Rotate crops, use resistant hybrids, apply fungicides.")]),
   ("Cercospora_leaf_spot",
    [("description", "A fungal disease causing gray leaf spots."),
     ("treatment", "Crop rotation, fungicide application, remove infected debris.")]),
   ("Bacterial_spot",
    [("description", "A bacterial disease causing dark spots on leaves and fruit."),
     ("treatment", "Use disease-free seeds, apply copper-based bactericides.")]),
   ("Early_blight",
    [("description", "A fungal disease causing dark spots with concentric rings."),
     ("treatment", "Remove infected leaves, apply fungicides, practice crop rotation.")]),
   ("Late_blight",
    [("description", "A serious disease causing water-soaked lesions and plant death."),
     ("treatment", "Apply fungicides preventatively, destroy infected plants immediately.")]),
   ("Leaf_Mold",
    [("description", "A fungal disease causing yellow spots on upper leaf surfaces."),
     ("treatment", "Improve ventilation, reduce humidity, apply fungicides.")]),
   ("Septoria_leaf_spot",
    [("description", "A fungal disease causing circular spots with gray centers."),
     ("treatment", "Remove infected leaves, apply fungicides, mulch around plants.")]),
   ("Target_Spot",
    [("description", "A fungal disease causing concentric ring patterns on leaves."),
     ("treatment", "Practice crop rotation, apply fungicides, maintain plant spacing.")]),
   ("Tomato_Yellow_Leaf_Curl_Virus",
    [("description", "A viral disease causing yellowing and curling of leaves."),
     ("treatment", "Control whitefly vectors, remove infected plants, use resistant varieties.")]),
   ("Tomato_mosaic_virus",
    [("description", "A viral disease causing mottled leaves and reduced fruit quality."),
     ("treatment", "Use virus-free seeds, sanitize tools, remove infected plants.")]),
   ("healthy",
    [("description", "No disease detected. The plant appears healthy!"),
     ("treatment", "Continue regular maintenance and monitoring.")])]

/-- The fallback record returned when no key matches. -/
def disease_info_fallback : List (String × String) :=
  [("description", "Disease information not available."),
   ("treatment", "Consult with a local agricultural extension service.")]

/-- Case-insensitive substring test the lookup performs for one table key:
`key.lower() in disease_name.lower()`. -/
def diseaseKeyMatches (key diseaseName : String) : Bool :=
  isSubList (pyLower key.toList) (pyLower diseaseName.toList)

/-- `get_disease_info` of src/utils.py (lines 60-139): iterate the table in
declaration order, return the value of the first key whose lowercase form is a
substring of the lowercase disease name, else the generic fallback. -/
def get_disease_info (diseaseName : String) : List (String × String) :=
  match disease_info_table.find? (fun kv => diseaseKeyMatches kv.1 diseaseName) with
  | some kv => kv.2
  | none => disease_info_fallback

/-! ### Top-5 display (src/app_enhanced.py, `main`, lines 316-331)

`np.argsort(all_predictions)` sorts indices by ascending score.  numpy leaves
the relative order of equal elements unspecified under its default sort; the
embedding fixes the stable semantics (numpy kind "stable"): ties keep their
original index order, i.e. the result is sorted by the lexicographic key
(score, index).  Since those keys are pairwise distinct, the sorted result is
unique and algorithm-independent. -/

/-- The ascending comparison on positions of `xs` used by the argsort
embedding: lexicographic on (score, index). -/
def leKey (xs : List ℚ) (i j : Nat) : Prop :=
  xs.getD i 0 < xs.getD j 0 ∨ (xs.getD i 0 = xs.getD j 0 ∧ i ≤ j)

instance (xs : List ℚ) (i j : Nat) : Decidable (leKey xs i j) := by
  unfold leKey; infer_instance

instance (xs : List ℚ) : IsTotal Nat (leKey xs) where
  total i j := by
    unfold leKey
    rcases lt_trichotomy (xs.getD i 0) (xs.getD j 0) with h | h | h
    · exact Or.inl (Or.inl h)
    · rcases Nat.le_total i j with hij | hij
      · exact Or.inl (Or.inr ⟨h, hij⟩)
      · exact Or.inr (Or.inr ⟨h.symm, hij⟩)
    · exact Or.inr (Or.inl h)

instance (xs : List ℚ) : IsTrans Nat (leKey xs) where
  trans i j k hij hjk := by
    unfold leKey at *
    rcases hij with h1 | ⟨e1, l1⟩
    · rcases hjk with h2 | ⟨e2, _⟩
      · exact Or.inl (h1.trans h2)
      · exact Or.inl (e2 ▸ h1)
    · rcases hjk with h2 | ⟨e2, l2⟩
      · exact Or.inl (e1 ▸ h2)
      · exact Or.inr ⟨e1.trans e2, l1.trans l2⟩

/-- `np.argsort(xs)` under the stable semantics described above: the indices
`0 .. xs.length - 1` sorted by ascending (score, index). -/
def argsortStable (xs : List ℚ) : List Nat :=
  List.insertionSort (leKey xs) (List.range xs.length)

/-- `np.argsort(all_predictions)[-5:][::-1]` (src/app_enhanced.py line 316):
the last five entries of the ascending argsort, reversed.  (Python `[-5:]` on
a list shorter than 5 keeps the whole list; `List.drop (n - 5)` agrees.) -/
def top_5_idx (xs : List ℚ) : List Nat :=
  ((argsortStable xs).drop (xs.length - 5)).reverse

/-! ### Result formatting (src/app_enhanced.py, `main`, lines 249-310) -/

/-- The label-parsing and lookup block of `main` in src/app_enhanced.py:
`parts = predicted_label.split("___")`, `plant_name = parts[0].replace(d, s)`,
`disease_name = parts[1].replace(d, s) if len(parts) > 1 else "Unknown"`
(with `d` the underscore and `s` the space), then
`disease_info = get_disease_info(disease_name)`.  Returns
(plant name, disease name, confidence, displayed description/treatment). -/
def formatResult (scores : List ℚ) : String × String × ℚ × List (String × String) :=
  let r := predict_disease_multi scores
  let parts := pySplit "___".toList r.1.toList
  let plant := String.mk (pyReplaceChar (Char.ofNat 95) (Char.ofNat 32) (parts.getD 0 []))
  let disease :=
    if parts.length > 1 then
      String.mk (pyReplaceChar (Char.ofNat 95) (Char.ofNat 32) (parts.getD 1 []))
    else "Unknown"
  (plant, disease, r.2.1, get_disease_info disease)

/-! ### Model cache (src/app.py lines 23-40, src/model_loader.py lines 35-53)

`@st.cache_resource` memoizes the decorated zero-argument loader for the
process lifetime: the first call runs the body and stores the result, every
later call returns the stored value without running the body.  The embedding
is the documented memoization state machine; the loader body (file checks,
keras deserialization, optional download) is the abstract `build`. -/

/-- Process-lifetime cache state: the stored model, if any, and how many times
the loader body has run. -/
structure CacheState (M : Type) where
  cached : Option M
  loads : Nat

/-- Fresh process: nothing cached, zero loads. -/
def initCache (M : Type) : CacheState M :=
  { cached := none, loads := 0 }

/-- One call to the `@st.cache_resource` decorated loader: return the cached
instance when present, otherwise run `build`, cache and return its result. -/
def cacheCall {M : Type} (build : Unit → M) (s : CacheState M) : M × CacheState M :=
  match s.cached with
  | some m => (m, s)
  | none =>
    let m := build ()
    (m, { cached := some m, loads := s.loads + 1 })

/-- The cache state after `n` calls to the decorated loader, starting from a
fresh process. -/
def cacheAfter {M : Type} (build : Unit → M) : Nat → CacheState M
  | 0 => initCache M
  | n + 1 => (cacheCall build (cacheAfter build n)).2

/-- The model instance returned by call number `n + 1` (zero-based `n`). -/
def cacheResult {M : Type} (build : Unit → M) (n : Nat) : M :=
  (cacheCall build (cacheAfter build n)).1

/-! ### Concrete score vectors used in the claim instances

All are length-38 probability vectors summing to 1, written with `mkRat`
(so `mkRat 81 100` is the float literal 0.81) to keep kernel evaluation
available to `decide`. -/

/-- Scores with the unique maximum 0.81 at index 27 and 19/3700 elsewhere. -/
def scoresMax27 : List ℚ :=
  (List.range 38).map (fun i => if i = 27 then mkRat 81 100 else mkRat 19 3700)

/-- Scores with the unique maximum 0.81 at index 28 and 19/3700 elsewhere. -/
def scoresMax28 : List ℚ :=
  (List.range 38).map (fun i => if i = 28 then mkRat 81 100 else mkRat 19 3700)

/-- Scores with the two equal maxima 0.45 at indices 0 and 1, 1/360 elsewhere. -/
def scoresTie01 : List ℚ :=
  (List.range 38).map (fun i => if i = 0 ∨ i = 1 then mkRat 45 100 else mkRat 1 360)

/-- Scores with the two equal maxima 0.3 at indices 3 and 7, 1/90 elsewhere. -/
def scoresTie37 : List ℚ :=
  (List.range 38).map (fun i => if i = 3 ∨ i = 7 then mkRat 3 10 else mkRat 1 90)

/-- A concrete non-RGB 500-by-500 image used to instantiate the preprocessing
theorem. -/
def sampleImage : PILImage :=
  { mode := "RGBA", width := 500, height := 500, px := fun _ _ => (0, 0, 0) }

/-! ### Helper lemmas -/

/-- `List.find?` returns the entry at the first index satisfying the
predicate, position-wise. -/
theorem find?_eq_getD_of_first {α : Type} (d : α) (p : α → Bool) :
    ∀ (l : List α) (i : Nat), i < l.length → p (l.getD i d) = true →
    (∀ j, j < i → p (l.getD j d) = false) →
    l.find? p = some (l.getD i d) := by
  intro l
  induction l with
  | nil => intro i hi; exact absurd hi (by simp)
  | cons x xs ih =>
    intro i hi hp hfirst
    cases i with
    | zero =>
      simp only [List.getD_cons_zero] at hp ⊢
      simp [List.find?, hp]
    | succ k =>
      have hx : p x = false := by
        have := hfirst 0 (Nat.succ_pos k)
        simpa using this
      have hk : k < xs.length := by simpa using hi
      have hpk : p (xs.getD k d) = true := by simpa using hp
      have hfk : ∀ j, j < k → p (xs.getD j d) = false := by
        intro j hj
        have := hfirst (j + 1) (Nat.succ_lt_succ hj)
        simpa using this
      simp only [List.getD_cons_succ]
      rw [List.find?, hx]
      exact ih k hk hpk hfk

/-- `List.find?` fails when no position satisfies the predicate. -/
theorem find?_eq_none_of_all {α : Type} (d : α) (p : α → Bool) :
    ∀ (l : List α), (∀ j, j < l.length → p (l.getD j d) = false) →
    l.find? p = none := by
  intro l
  induction l with
  | nil => intro _; rfl
  | cons x xs ih =>
    intro h
    have hx : p x = false := by simpa using h 0 (Nat.succ_pos _)
    rw [List.find?, hx]
    exact ih (fun j hj => by simpa using h (j + 1) (Nat.succ_lt_succ hj))

/-! ### C1 -/

/-- C1: in binary mode, for every model output probability `p`,
`predict_disease` labels "Diseased" exactly when `p > 0.5` (at `p = 0.5` the
label is "Healthy"), and the returned confidence is `p` for "Diseased" and
`1 - p` for "Healthy". -/
theorem binary_label_iff_and_confidence (p : ℚ) :
    ((predict_disease_binary p).1 = "Diseased" ↔ p > mkRat 1 2)
    ∧ (predict_disease_binary (mkRat 1 2)).1 = "Healthy"
    ∧ ((predict_disease_binary p).1 = "Diseased" → (predict_disease_binary p).2.1 = p)
    ∧ ((predict_disease_binary p).1 = "Healthy" → (predict_disease_binary p).2.1 = 1 - p) := by
  have hb : (predict_disease_binary (mkRat 1 2)).1 = "Healthy" := by decide
  by_cases h : p > mkRat 1 2
  · refine ⟨⟨fun _ => h, fun _ => ?_⟩, hb, fun _ => ?_, fun hl => ?_⟩
    · simp [predict_disease_binary, h]
    · simp [predict_disease_binary, h]
    · rw [predict_disease_binary, if_pos h] at hl
      exact absurd hl (by simp)
  · refine ⟨⟨fun hl => ?_, fun hc => absurd hc h⟩, hb, fun hl => ?_, fun _ => ?_⟩
    · rw [predict_disease_binary, if_neg h] at hl
      exact absurd hl (by simp)
    · rw [predict_disease_binary, if_neg h] at hl
      exact absurd hl (by simp)
    · simp [predict_disease_binary, h]

/-- Witness for C1 at the concrete inputs `p = 0.75` and `p = 0.5`. -/
theorem binary_label_iff_and_confidence_witness :
    (predict_disease_binary (mkRat 3 4)).1 = "Diseased"
    ∧ (predict_disease_binary (mkRat 3 4)).2.1 = mkRat 3 4
    ∧ (predict_disease_binary (mkRat 1 2)).1 = "Healthy"
    ∧ (predict_disease_binary (mkRat 1 2)).2.1 = 1 - mkRat 1 2 :=
  ⟨(binary_label_iff_and_confidence (mkRat 3 4)).1.mpr (by decide),
   (binary_label_iff_and_confidence (mkRat 3 4)).2.2.1
     ((binary_label_iff_and_confidence (mkRat 3 4)).1.mpr (by decide)),
   (binary_label_iff_and_confidence (mkRat 1 2)).2.1,
   (binary_label_iff_and_confidence (mkRat 1 2)).2.2.2
     (binary_label_iff_and_confidence (mkRat 1 2)).2.1⟩

/-! ### C5 -/

/-- Invariant of the argmax scan: either nothing in the remaining list beats
the incumbent `bv` and the incumbent index is returned, or the scan returns
`k + t` for the first position `t` that attains the maximum of the remaining
list and strictly beats `bv`. -/
theorem argmaxAux_spec (xs : List ℚ) :
    ∀ (k bi : Nat) (bv : ℚ),
    (argmaxAux xs k bi bv = bi ∧ ∀ t, t < xs.length → xs.getD t 0 ≤ bv)
    ∨ (∃ t, t < xs.length ∧ argmaxAux xs k bi bv = k + t ∧ bv < xs.getD t 0
        ∧ (∀ u, u < xs.length → xs.getD u 0 ≤ xs.getD t 0)
        ∧ (∀ u, u < t → xs.getD u 0 < xs.getD t 0)) := by
  induction xs with
  | nil =>
    intro k bi bv
    left
    exact ⟨rfl, fun t ht => absurd ht (by simp)⟩
  | cons x rest ih =>
    intro k bi bv
    by_cases h : x > bv
    · have hstep : argmaxAux (x :: rest) k bi bv = argmaxAux rest (k + 1) k x := by
        simp only [argmaxAux, if_pos h]
      rcases ih (k + 1) k x with ⟨heq, hbound⟩ | ⟨t, ht, heq, hgt, hmax, hfirst⟩
      · right
        refine ⟨0, by simp, ?_, ?_, ?_, ?_⟩
        · rw [hstep, heq]; omega
        · simpa using h
        · intro u hu
          cases u with
          | zero => simp
          | succ v =>
            have hv : v < rest.length := by simpa using hu
            simpa using hbound v hv
        · intro u hu
          exact absurd hu (Nat.not_lt_zero u)
      · right
        refine ⟨t + 1, by simpa using Nat.succ_lt_succ ht, ?_, ?_, ?_, ?_⟩
        · rw [hstep, heq]; omega
        · have : bv < rest.getD t 0 := h.trans hgt
          simpa using this
        · intro u hu
          cases u with
          | zero => simpa using le_of_lt hgt
          | succ v =>
            have hv : v < rest.length := by simpa using hu
            simpa using hmax v hv
        · intro u hu
          cases u with
          | zero => simpa using hgt
          | succ v =>
            have hv : v < t := by omega
            simpa using hfirst v hv
    · have hle : x ≤ bv := le_of_not_lt h
      have hstep : argmaxAux (x :: rest) k bi bv = argmaxAux rest (k + 1) bi bv := by
        simp only [argmaxAux, if_neg h]
      rcases ih (k + 1) bi bv with ⟨heq, hbound⟩ | ⟨t, ht, heq, hgt, hmax, hfirst⟩
      · left
        refine ⟨by rw [hstep, heq], ?_⟩
        intro t ht
        cases t with
        | zero => simpa using hle
        | succ v =>
          have hv : v < rest.length := by simpa using ht
          simpa using hbound v hv
      · right
        refine ⟨t + 1, by simpa using Nat.succ_lt_succ ht, ?_, ?_, ?_, ?_⟩
        · rw [hstep, heq]; omega
        · simpa using hgt
        · intro u hu
          cases u with
          | zero => simpa using (hle.trans_lt hgt).le
          | succ v =>
            have hv : v < rest.length := by simpa using hu
            simpa using hmax v hv
        · intro u hu
          cases u with
          | zero => simpa using hle.trans_lt hgt
          | succ v =>
            have hv : v < t := by omega
            simpa using hfirst v hv

/-- C5: for every non-empty multi-class score vector the predicted index is
the first (lowest) index attaining the maximum score, the returned label and
confidence are the table entry and score at that index; for the synthetic
vector with two equal maxima 0.3 at indices 3 and 7, the chosen label is the
entry at index 3. -/
theorem multi_argmax_first (scores : List ℚ) (h : scores ≠ []) :
    (argmaxFirst scores < scores.length
      ∧ (∀ j, j < scores.length → scores.getD j 0 ≤ scores.getD (argmaxFirst scores) 0)
      ∧ (∀ j, j < argmaxFirst scores → scores.getD j 0 < scores.getD (argmaxFirst scores) 0))
    ∧ (predict_disease_multi scores).1 = CLASS_LABELS.getD (argmaxFirst scores) ""
    ∧ (predict_disease_multi scores).2.1 = scores.getD (argmaxFirst scores) 0
    ∧ argmaxFirst scoresTie37 = 3
    ∧ (predict_disease_multi scoresTie37).1 = "Apple___healthy" := by
  refine ⟨?_, rfl, rfl, by decide, by decide⟩
  cases scores with
  | nil => exact absurd rfl h
  | cons x rest =>
    have hfirstdef : argmaxFirst (x :: rest) = argmaxAux rest 1 0 x := rfl
    rcases argmaxAux_spec rest 1 0 x with ⟨heq, hbound⟩ | ⟨t, ht, heq, hgt, hmax, hfirst⟩
    · rw [hfirstdef, heq]
      refine ⟨by simp, ?_, ?_⟩
      · intro j hj
        cases j with
        | zero => simp
        | succ v =>
          have hv : v < rest.length := by simpa using hj
          simpa using hbound v hv
      · intro j hj
        exact absurd hj (Nat.not_lt_zero j)
    · rw [hfirstdef, heq]
      have h1t : 1 + t = t + 1 := Nat.add_comm 1 t
      rw [h1t]
      refine ⟨by simpa using Nat.succ_lt_succ ht, ?_, ?_⟩
      · intro j hj
        cases j with
        | zero => simpa using le_of_lt hgt
        | succ v =>
          have hv : v < rest.length := by simpa using hj
          simpa using hmax v hv
      · intro j hj
        cases j with
        | zero => simpa using hgt
        | succ v =>
          have hv : v < t := by omega
          simpa using hfirst v hv

/-- Witness for C5 at the concrete tie vector. -/
theorem multi_argmax_first_witness :
    argmaxFirst scoresTie37 < scoresTie37.length
    ∧ (predict_disease_multi scoresTie37).1 = "Apple___healthy" := by
  have h := multi_argmax_first scoresTie37 (by decide)
  have h3 : argmaxFirst scoresTie37 = 3 := h.2.2.2.1
  exact ⟨h.1.1, h.2.2.2.2⟩

/-! ### C6 -/

/-- C6: for every disease-name string, `get_disease_info` returns the value of
the first table key (in declared order) whose lowercase form is a substring of
the lowercase name; when no key matches it returns the generic fallback; in
particular "Unknown_Condition_XYZ" gets the fallback. -/
theorem disease_info_first_match_or_fallback :
    (∀ (name : String) (i : Nat), i < disease_info_table.length →
        diseaseKeyMatches (disease_info_table.getD i ("", [])).1 name = true →
        (∀ j, j < i → diseaseKeyMatches (disease_info_table.getD j ("", [])).1 name = false) →
        get_disease_info name = (disease_info_table.getD i ("", [])).2)
    ∧ (∀ name : String,
        (∀ j, j < disease_info_table.length →
          diseaseKeyMatches (disease_info_table.getD j ("", [])).1 name = false) →
        get_disease_info name = disease_info_fallback)
    ∧ get_disease_info "Unknown_Condition_XYZ" = disease_info_fallback := by
  refine ⟨?_, ?_, by decide⟩
  · intro name i hi hm hf
    unfold get_disease_info
    rw [find?_eq_getD_of_first ("", []) _ disease_info_table i hi hm hf]
  · intro name hall
    unfold get_disease_info
    rw [find?_eq_none_of_all ("", []) _ disease_info_table hall]

/-- Witness for C6: "Apple_scab" matches the first table key. -/
theorem disease_info_first_match_witness :
    get_disease_info "Apple_scab" = (disease_info_table.getD 0 ("", [])).2 :=
  disease_info_first_match_or_fallback.1 "Apple_scab" 0 (by decide) (by decide)
    (fun j hj => absurd hj (Nat.not_lt_zero j))

/-! ### C7 -/

/-- C7: a zero-length upload is rejected with the empty-input error before
either decoder runs: the result on empty input is the empty-file error for
every pair of decoder functions, hence independent of them — neither decoder
is ever consulted. -/
theorem empty_upload_rejected_before_decoders :
    ∀ (pil pil2 : List Nat → Except String PILImage)
      (cv cva : List Nat → Except String BGRImage),
      load_uploaded_image pil cv [] = .error "Uploaded file is empty"
      ∧ load_uploaded_image pil cv [] = load_uploaded_image pil2 cva [] := by
  intro pil pil2 cv cva
  exact ⟨rfl, rfl⟩

/-- Witness for C7 with concrete always-failing decoder functions. -/
theorem empty_upload_rejected_witness :
    load_uploaded_image (fun _ => Except.error "nope")
        (fun _ => Except.error "nope2") []
      = .error "Uploaded file is empty" :=
  (empty_upload_rejected_before_decoders
      (fun _ => Except.error "nope") (fun _ => Except.error "nope")
      (fun _ => Except.error "nope2") (fun _ => Except.error "nope2")).1

/-! ### C8 -/

/-- C8: for non-empty bytes that the primary (PIL) decoder rejects, a success
of the secondary (OpenCV) decoder is returned after BGR-to-RGB conversion, and
a double failure raises a single error whose message contains both underlying
decoder messages. -/
theorem decoder_fallback_and_error_aggregation :
    ∀ (pil : List Nat → Except String PILImage)
      (cv : List Nat → Except String BGRImage)
      (raw : List Nat) (pilErr : String),
      raw ≠ [] → pil raw = .error pilErr →
      ((∀ cvImg, cv raw = .ok cvImg →
          load_uploaded_image pil cv raw = .ok (bgrToRgb cvImg))
       ∧ (∀ cvErr, cv raw = .error cvErr →
           load_uploaded_image pil cv raw =
             .error ("PIL error: " ++ pilErr ++ "; OpenCV error: " ++ cvErr)
           ∧ containsStr pilErr.toList
               ("PIL error: " ++ pilErr ++ "; OpenCV error: " ++ cvErr).toList
           ∧ containsStr cvErr.toList
               ("PIL error: " ++ pilErr ++ "; OpenCV error: " ++ cvErr).toList)) := by
  intro pil cv raw pilErr hraw hpil
  constructor
  · intro cvImg hcv
    unfold load_uploaded_image
    rw [if_neg hraw, hpil, hcv]
  · intro cvErr hcv
    refine ⟨?_, ?_, ?_⟩
    · unfold load_uploaded_image
      rw [if_neg hraw, hpil, hcv]
    · refine ⟨"PIL error: ".toList, ("; OpenCV error: " ++ cvErr).toList, ?_⟩
      simp [String.toList]
    · refine ⟨("PIL error: " ++ pilErr ++ "; OpenCV error: ").toList, [], ?_⟩
      simp [String.toList]

/-- Witness for C8 with a concrete 1-byte input and two failing decoders. -/
theorem decoder_fallback_witness :
    load_uploaded_image (fun _ => Except.error "PIL boom")
        (fun _ => Except.error "CV boom") [0]
      = .error ("PIL error: " ++ "PIL boom" ++ "; OpenCV error: " ++ "CV boom")
    ∧ containsStr "PIL boom".toList
        ("PIL error: " ++ "PIL boom" ++ "; OpenCV error: " ++ "CV boom").toList
    ∧ containsStr "CV boom".toList
        ("PIL error: " ++ "PIL boom" ++ "; OpenCV error: " ++ "CV boom").toList :=
  (decoder_fallback_and_error_aggregation
      (fun _ => Except.error "PIL boom") (fun _ => Except.error "CV boom")
      [0] "PIL boom" (by decide) rfl).2 "CV boom" rfl

/-! ### C9 -/

/-- After at least one call the cache holds the single built instance and the
loader body has run exactly once. -/
theorem cacheAfter_succ_eq {M : Type} (build : Unit → M) :
    ∀ n, cacheAfter build (n + 1) = { cached := some (build ()), loads := 1 } := by
  intro n
  induction n with
  | zero => rfl
  | succ k ih =>
    show (cacheCall build (cacheAfter build (k + 1))).2 = _
    rw [ih]
    rfl

/-- C9: the model is built at most once per process: the load count never
exceeds 1, after the first call it is exactly 1, the cached instance is the
first build's result, and every call returns that same instance. -/
theorem model_loaded_at_most_once :
    ∀ (M : Type) (build : Unit → M) (n : Nat),
      (cacheAfter build n).loads ≤ 1
      ∧ (cacheAfter build (n + 1)).loads = 1
      ∧ (cacheAfter build (n + 1)).cached = some (build ())
      ∧ cacheResult build n = build () := by
  intro M build n
  refine ⟨?_, ?_, ?_, ?_⟩
  · cases n with
    | zero => exact Nat.zero_le 1
    | succ k => rw [cacheAfter_succ_eq build k]
  · rw [cacheAfter_succ_eq build n]
  · rw [cacheAfter_succ_eq build n]
  · cases n with
    | zero => rfl
    | succ k =>
      show (cacheCall build (cacheAfter build (k + 1))).1 = build ()
      rw [cacheAfter_succ_eq build k]
      rfl

/-- Witness for C9 with a concrete builder and call count. -/
theorem model_loaded_at_most_once_witness :
    (cacheAfter (fun _ => (0 : Nat)) 3).loads = 1
    ∧ cacheResult (fun _ => (0 : Nat)) 2 = 0 :=
  ⟨(model_loaded_at_most_once Nat (fun _ => 0) 2).2.1,
   (model_loaded_at_most_once Nat (fun _ => 0) 2).2.2.2⟩

/-! ### C10 -/

/-- C10: `get_disease_info` is total: for every input string it returns a
record carrying both a "description" and a "treatment" field (either a table
entry or the generic fallback), and never fails. -/
theorem disease_info_always_has_fields (name : String) :
    ((get_disease_info name).lookup "description").isSome = true
    ∧ ((get_disease_info name).lookup "treatment").isSome = true := by
  have h : get_disease_info name = disease_info_fallback ∨
      ∃ kv, kv ∈ disease_info_table ∧ get_disease_info name = kv.2 := by
    unfold get_disease_info
    cases hf : disease_info_table.find? (fun kv => diseaseKeyMatches kv.1 name) with
    | none => exact Or.inl rfl
    | some kv => exact Or.inr ⟨kv, List.mem_of_find?_eq_some hf, rfl⟩
  have hall : ∀ kv ∈ disease_info_table,
      ((kv.2.lookup "description").isSome = true
        ∧ ((kv.2.lookup "treatment").isSome = true)) := by decide
  rcases h with h | ⟨kv, hmem, h⟩
  · rw [h]
    exact ⟨by decide, by decide⟩
  · rw [h]
    exact hall kv hmem

/-- Witness for C10 at a string matching no key (the empty string). -/
theorem disease_info_always_has_fields_witness :
    ((get_disease_info "").lookup "description").isSome = true
    ∧ ((get_disease_info "").lookup "treatment").isSome = true :=
  disease_info_always_has_fields ""

/-! ### C2 -/

/-- Every 8-bit channel value, as a rational, lies in `[0, 255]`. -/
theorem fin256_cast_bounds (v : Fin 256) : 0 ≤ (v : ℚ) ∧ (v : ℚ) ≤ 255 := by
  constructor
  · exact_mod_cast Nat.zero_le (v : ℕ)
  · exact_mod_cast Nat.lt_succ_iff.mp v.isLt

/-- `channelVal` is bounded by the 8-bit range. -/
theorem channelVal_bounds (p : Pix) (c : Nat) :
    0 ≤ channelVal p c ∧ channelVal p c ≤ 255 := by
  rcases c with _ | _ | c
  · exact fin256_cast_bounds p.1
  · exact fin256_cast_bounds p.2.1
  · exact fin256_cast_bounds p.2.2

/-- The normalization tail maps every 8-bit grid into `[0, 1]`. -/
theorem toNormalizedTensor_val_bounds (grid : Nat → Nat → Pix) (tw th b i j c : Nat) :
    0 ≤ (toNormalizedTensor grid tw th).val b i j c
    ∧ (toNormalizedTensor grid tw th).val b i j c ≤ 1 := by
  have hb := channelVal_bounds (grid i j) c
  constructor
  · exact div_nonneg hb.1 (by norm_num)
  · rw [show (toNormalizedTensor grid tw th).val b i j c
        = channelVal (grid i j) c / 255 from rfl,
      div_le_one (by norm_num)]
    exact hb.2

/-- C2: for every decoded image of any size and mode, both preprocessors
(`preprocess_image` of src/app.py, without enhancement, and
`preprocess_with_clahe` of src/utils.py, for every enhancement function of the
cv2 pipeline's type) return a tensor of shape `[1, target_h, target_w, 3]`
whose values all lie in the closed interval `[0, 1]`; the step order (convert
to RGB, resize, optionally enhance, divide by 255, prepend the batch axis) is
the structure of the two definitions. -/
theorem preprocess_output_shape_and_range :
    ∀ (img : PILImage) (tw th : Nat) (enhance : EnhanceFn),
      (preprocess_image img tw th).shape = [1, th, tw, 3]
      ∧ (∀ b i j c, 0 ≤ (preprocess_image img tw th).val b i j c
          ∧ (preprocess_image img tw th).val b i j c ≤ 1)
      ∧ (preprocess_with_clahe enhance img tw th).shape = [1, th, tw, 3]
      ∧ (∀ b i j c, 0 ≤ (preprocess_with_clahe enhance img tw th).val b i j c
          ∧ (preprocess_with_clahe enhance img tw th).val b i j c ≤ 1) := by
  intro img tw th enhance
  refine ⟨rfl, ?_, rfl, ?_⟩
  · intro b i j c
    exact toNormalizedTensor_val_bounds _ tw th b i j c
  · intro b i j c
    exact toNormalizedTensor_val_bounds _ tw th b i j c

/-- Witness for C2 at a concrete 500-by-500 RGBA image, both target sizes the
deployments use, and the identity enhancement. -/
theorem preprocess_output_shape_and_range_witness :
    (preprocess_image sampleImage 150 150).shape = [1, 150, 150, 3]
    ∧ (preprocess_with_clahe (fun g => g) sampleImage 224 224).shape = [1, 224, 224, 3] :=
  ⟨(preprocess_output_shape_and_range sampleImage 150 150 (fun g => g)).1,
   (preprocess_output_shape_and_range sampleImage 224 224 (fun g => g)).2.2.1⟩

/-! ### C3 -/

/-- Counterexample to C3 as stated: index 27 of the fixed label table is
"Strawberry___healthy", not "Tomato___Bacterial_spot", so a score vector with
its maximum 0.81 at index 27 yields plant "Strawberry" and disease "healthy",
not plant "Tomato". -/
theorem scenario3_as_stated_fails :
    CLASS_LABELS.getD 27 "" = "Strawberry___healthy"
    ∧ CLASS_LABELS.getD 27 "" ≠ "Tomato___Bacterial_spot"
    ∧ argmaxFirst scoresMax27 = 27
    ∧ (formatResult scoresMax27).1 = "Strawberry"
    ∧ (formatResult scoresMax27).1 ≠ "Tomato" := by
  refine ⟨by decide, by decide, by decide, by decide, by decide⟩

/-- C3 amended: "Tomato___Bacterial_spot" is index 28; with the maximum 0.81
there, the result has plant "Tomato", disease "Bacterial spot" and confidence
0.81, but the displayed description/treatment is the generic fallback, not the
"Bacterial_spot" table entry: the lookup receives the space-separated name
"Bacterial spot" while every multi-word table key uses underscores, so the
substring match fails.  (With the maximum at index 27 the result is the
"Strawberry"/"healthy" display with the "healthy" entry.) -/
theorem scenario3_amended :
    CLASS_LABELS.getD 28 "" = "Tomato___Bacterial_spot"
    ∧ argmaxFirst scoresMax28 = 28
    ∧ formatResult scoresMax28
        = ("Tomato", "Bacterial spot", mkRat 81 100, disease_info_fallback)
    ∧ (formatResult scoresMax28).2.2.2
        ≠ [("description", "A bacterial disease causing dark spots on leaves and fruit."),
           ("treatment", "Use disease-free seeds, apply copper-based bactericides.")]
    ∧ formatResult scoresMax27
        = ("Strawberry", "healthy", mkRat 81 100,
           [("description", "No disease detected. The plant appears healthy!"),
            ("treatment", "Continue regular maintenance and monitoring.")]) := by
  refine ⟨by decide, by decide, by decide, by decide, by decide⟩

/-! ### C4 -/

/-- The stable argsort is a permutation of the index range. -/
theorem argsortStable_perm (xs : List ℚ) :
    List.Perm (argsortStable xs) (List.range xs.length) :=
  List.perm_insertionSort _ _

/-- The stable argsort is sorted by ascending (score, index). -/
theorem argsortStable_sorted (xs : List ℚ) :
    List.Sorted (leKey xs) (argsortStable xs) :=
  List.sorted_insertionSort _ _

/-- The stable argsort repeats no index. -/
theorem argsortStable_nodup (xs : List ℚ) : (argsortStable xs).Nodup :=
  (argsortStable_perm xs).nodup_iff.mpr (List.nodup_range _)

/-- C4 amended: for every 38-entry score vector the displayed top-5 list has
five entries, each later entry has strictly smaller probability or — on equal
probability — a strictly smaller table index (descending index order on ties,
the reverse of the claimed ascending order), and every class outside the list
has probability at most that of every class inside it. -/
theorem top5_descending_by_probability (xs : List ℚ) (hlen : xs.length = 38) :
    (top_5_idx xs).length = 5
    ∧ List.Pairwise
        (fun a b => xs.getD b 0 < xs.getD a 0 ∨ (xs.getD a 0 = xs.getD b 0 ∧ b < a))
        (top_5_idx xs)
    ∧ (∀ i, i < 38 → i ∉ top_5_idx xs →
        ∀ j, j ∈ top_5_idx xs → xs.getD i 0 ≤ xs.getD j 0) := by
  have hperm := argsortStable_perm xs
  have hsorted := argsortStable_sorted xs
  have hnodup := argsortStable_nodup xs
  have hAlen : (argsortStable xs).length = 38 := by
    rw [hperm.length_eq, List.length_range, hlen]
  refine ⟨?_, ?_, ?_⟩
  · unfold top_5_idx
    rw [List.length_reverse, List.length_drop, hAlen, hlen]
  · have hpair : List.Pairwise (fun a b => leKey xs a b ∧ a ≠ b) (argsortStable xs) :=
      hsorted.and hnodup
    have hdrop : List.Pairwise (fun a b => leKey xs a b ∧ a ≠ b)
        ((argsortStable xs).drop (xs.length - 5)) :=
      hpair.sublist (List.drop_sublist _ _)
    unfold top_5_idx
    refine List.pairwise_reverse.mpr (hdrop.imp ?_)
    intro a b hab
    rcases hab with ⟨hk, hne⟩
    rcases hk with hlt | ⟨heq, hle⟩
    · exact Or.inl hlt
    · exact Or.inr ⟨heq.symm, lt_of_le_of_ne hle hne⟩
  · intro i hi hnot j hj
    have hiA : i ∈ argsortStable xs :=
      hperm.mem_iff.mpr (List.mem_range.mpr (hlen ▸ hi))
    have hjdrop : j ∈ (argsortStable xs).drop (xs.length - 5) := by
      unfold top_5_idx at hj
      exact List.mem_reverse.mp hj
    have hidrop : i ∉ (argsortStable xs).drop (xs.length - 5) := by
      intro hmem
      apply hnot
      unfold top_5_idx
      exact List.mem_reverse.mpr hmem
    have hiA2 : i ∈ (argsortStable xs).take (xs.length - 5)
        ++ (argsortStable xs).drop (xs.length - 5) := by
      rw [List.take_append_drop]
      exact hiA
    have hitake : i ∈ (argsortStable xs).take (xs.length - 5) := by
      rcases List.mem_append.mp hiA2 with h | h
      · exact h
      · exact absurd h hidrop
    have hs2 : List.Pairwise (leKey xs)
        ((argsortStable xs).take (xs.length - 5)
          ++ (argsortStable xs).drop (xs.length - 5)) := by
      rw [List.take_append_drop]
      exact hsorted
    have hij := (List.pairwise_append.mp hs2).2.2 i hitake j hjdrop
    rcases hij with h | ⟨h, _⟩
    · exact le_of_lt h
    · exact le_of_eq h

/-- Witness for C4 (amended) at the concrete tie vector. -/
theorem top5_descending_by_probability_witness :
    (top_5_idx scoresTie01).length = 5 :=
  (top5_descending_by_probability scoresTie01 (by decide)).1

/-- Counterexample to C4 as stated: on the vector with equal maxima 0.45 at
indices 0 and 1, the displayed top-5 list is `[1, 0, 37, 36, 35]`: the tied
classes 1 and 0 appear in descending index order, so it is not the case that
any two equally probable displayed classes appear in ascending index order. -/
theorem top5_tie_order_counterexample :
    scoresTie01.length = 38
    ∧ scoresTie01.getD 1 0 = scoresTie01.getD 0 0
    ∧ top_5_idx scoresTie01 = [1, 0, 37, 36, 35]
    ∧ ¬ (∀ a b : Nat, a ∈ top_5_idx scoresTie01 → b ∈ top_5_idx scoresTie01 →
          scoresTie01.getD a 0 = scoresTie01.getD b 0 →
          (top_5_idx scoresTie01).indexOf a < (top_5_idx scoresTie01).indexOf b →
          a < b) := by
  refine ⟨by decide, by decide, by decide, fun hcl => ?_⟩
  have h10 := hcl 1 0 (by decide) (by decide) (by decide) (by decide)
  exact absurd h10 (by decide)

end PlantDisease
